import Mathlib

/-!
# Verification of `optimade/utils.py`

Shallow embedding of the provider-directory resolver of
`optimade/utils.py` (`mongo_id_for_database`, `get_providers`,
`_unpack_providers`, `get_child_database_links`) and proofs about it.

Python strings are modelled as Lean `String`s (sequences of code points);
Python dicts are modelled as association lists with unique keys and
Python's `dict.get` / `dict.pop` / `dict.update` semantics; network and
file I/O are modelled by passing the environment (the response each URL
would yield) as an explicit function argument.
-/

deriving instance DecidableEq for Except

namespace OptimadeUtils

/-- The Python exceptions that the embedded code can raise. -/
inductive PyErr where
  /-- `KeyError` from `dict.pop(k)` / `dict[k]` on a missing key. -/
  | keyError (key : String)
  /-- `TypeError` (e.g. `dict.update` of a non-mapping, `non-str + str`). -/
  | typeError
  /-- `bson.errors.InvalidId` from `ObjectId` on a payload that is not 12 bytes. -/
  | bsonInvalidId
  /-- `UnboundLocalError` from reading a local variable never assigned. -/
  | unboundLocalError (name : String)
  /-- `AttributeError` (e.g. `.attributes` on a dict, `.get` on a model). -/
  | attributeError
  /-- `RuntimeError(msg)`. -/
  | runtimeError (msg : String)
  /-- A pydantic `ValidationError` from `LinksResponse(**...)`. -/
  | validationError
deriving DecidableEq, Repr

/-- Scalar JSON values appearing inside a nested `attributes` mapping. -/
inductive SVal where
  | null
  | str (s : String)
deriving DecidableEq, Repr

/-- JSON values appearing at the top level of a provider record: scalars,
or a one-level-deep object (the nested `attributes` mapping, the
`{"$oid": ...}` payload). -/
inductive JVal where
  | null
  | str (s : String)
  | obj (fields : List (String × SVal))
deriving DecidableEq, Repr

/-- Embed a scalar value into `JVal` (used when `attributes` entries are
merged to the top level of a record). -/
def SVal.toJ : SVal → JVal
  | .null => .null
  | .str s => .str s

/-- A Python dict with `JVal` values: association list, unique keys. -/
abbrev Dict := List (String × JVal)

/-- A Python dict with scalar values (a nested `attributes` mapping). -/
abbrev ADict := List (String × SVal)

/-- `d.get(k)` / `d[k]`: the value bound to `k`, if any. -/
def dGet (k : String) : List (String × α) → Option α
  | [] => none
  | (k2, v) :: rest => if k2 = k then some v else dGet k rest

/-- Remove every binding of key `k` (on unique-key dicts this is the
removal part of `d.pop(k)`). -/
def dRemove (k : String) (d : List (String × α)) : List (String × α) :=
  d.filter (fun p => p.1 ≠ k)

/-- `d[k] = v`: replace the value in place when the key is present,
append the binding otherwise — Python dict assignment semantics. -/
def dSet (k : String) (v : α) (d : List (String × α)) : List (String × α) :=
  if (dGet k d).isSome then
    d.map (fun p => if p.1 = k then (k, v) else p)
  else
    d ++ [(k, v)]

/-- `d.update(e)`: assign each binding of `e` into `d`, in order. -/
def dUpdate (d e : List (String × α)) : List (String × α) :=
  e.foldl (fun acc q => dSet q.1 q.2 acc) d

/-- Python `str(...)` of an embedded value (`None` prints as `"None"`;
a dict prints with braces, which no claim exercises). -/
def pyStr : JVal → String
  | .null => "None"
  | .str s => s
  | .obj _ => "\x7b...\x7d"

/-- Python `repr` of a `bytes` response body, as interpolated by
`f"...{links.content!r}"`: `b` followed by the body in single quotes
(escaping of quote characters inside the body is not modelled; no claim
exercises it). -/
def pyBytesRepr (s : String) : String :=
  "b" ++ String.singleton (Char.ofNat 39) ++ s ++ String.singleton (Char.ofNat 39)

/-! ## `mongo_id_for_database` -/

/-- The UTF-8 encoding of one code point, as a list of byte values —
what Python's `str.encode("UTF-8")` produces per character. -/
def utf8BytesChar (c : Char) : List Nat :=
  let n := c.toNat
  if n < 0x80 then [n]
  else if n < 0x800 then
    [0xC0 ||| (n >>> 6), 0x80 ||| (n &&& 0x3F)]
  else if n < 0x10000 then
    [0xE0 ||| (n >>> 12), 0x80 ||| ((n >>> 6) &&& 0x3F), 0x80 ||| (n &&& 0x3F)]
  else
    [0xF0 ||| (n >>> 18), 0x80 ||| ((n >>> 12) &&& 0x3F),
     0x80 ||| ((n >>> 6) &&& 0x3F), 0x80 ||| (n &&& 0x3F)]

/-- One lowercase hex digit. -/
def hexDigit (n : Nat) : Char :=
  if n < 10 then Char.ofNat (48 + n) else Char.ofNat (87 + n % 16)

/-- Two lowercase hex digits of a byte — `str(ObjectId(...))` renders the
12-byte payload as 24 lowercase hex characters. -/
def hexByte (b : Nat) : List Char :=
  [hexDigit ((b >>> 4) % 16), hexDigit (b % 16)]

/-- The hex string of a byte sequence. -/
def hexString (bytes : List Nat) : String :=
  String.mk (bytes.flatMap hexByte)

/-- Lines 29–33 of `mongo_id_for_database`: concatenate the two strings,
truncate to the first 12 characters when longer than 12, right-pad with
`'0'` to 12 characters when shorter (`'0'` is code point 48). -/
def mongoOid (database_id database_type : String) : List Char :=
  let oid := database_id.data ++ database_type.data
  if oid.length > 12 then oid.take 12
  else if oid.length < 12 then oid ++ List.replicate (12 - oid.length) (Char.ofNat 48)
  else oid

/-- `mongo_id_for_database`: build the 12-character string, encode it as
UTF-8, and pass it to `bson.objectid.ObjectId`, which requires exactly
12 **bytes** (raising `InvalidId` otherwise) and whose `str` is the
24-character lowercase hex rendering of those bytes. -/
def mongo_id_for_database (database_id database_type : String) : Except PyErr String :=
  let bytes := (mongoOid database_id database_type).flatMap utf8BytesChar
  if bytes.length = 12 then .ok (hexString bytes) else .error .bsonInvalidId

/-! ## The links data model

`optimade.models.links` / `optimade.models.responses` are not part of this
excerpt, so the types below are modelled from the spec. -/

/-- Modelled from the spec: `link_type` is "enumerated: `child`, others";
the enumeration of `optimade.models.links.LinkType`. -/
inductive LinkType where
  | child
  | root
  | external
  | providers
deriving DecidableEq, Repr

/-- The JSON string value of a `LinkType` member. -/
def linkTypeStr : LinkType → String
  | .child => "child"
  | .root => "root"
  | .external => "external"
  | .providers => "providers"

/-- Modelled from the spec: the attribute fields of a links resource that
this excerpt reads (`base_url`, nullable URL string; `link_type`; a
`name`). `optimade.models.links.LinksResourceAttributes` is not in the
excerpt. -/
structure LinksResourceAttributes where
  name : String
  base_url : Option String
  link_type : LinkType
deriving DecidableEq, Repr

/-- Modelled from the spec: a fully-typed links resource with `id`,
`type` and nested attributes. `optimade.models.links.LinksResource` is
not in the excerpt. -/
structure LinksResource where
  id : String
  type_ : String
  attributes : LinksResourceAttributes
deriving DecidableEq, Repr

/-- One entry of `LinksResponse.data` — per the spec, "each polymorphic:
either a fully-typed resource or a raw mapping, depending on parse
path". -/
inductive Entry where
  | typed (r : LinksResource)
  | raw (d : Dict)
deriving DecidableEq, Repr

/-- `json.loads(provider.json())`: the raw dict that serializing a typed
`LinksResource` and re-parsing it yields. -/
def LinksResource.toRaw (r : LinksResource) : Dict :=
  [("id", .str r.id),
   ("type", .str r.type_),
   ("attributes", .obj
     [("name", .str r.attributes.name),
      ("base_url", match r.attributes.base_url with
                   | some u => .str u
                   | none => .null),
      ("link_type", .str (linkTypeStr r.attributes.link_type))])]

/-! ## `_unpack_providers` -/

/-- Lines 115–132 of `_unpack_providers`, one loop iteration: coerce the
entry to a raw dict, skip it when `_provider["id"] == "exmpl"` (read
**before** the merge), pop the nested `attributes` mapping and
`update` it into the top level, and, when `add_mongo_id` is set, attach
`_provider["_id"] = {"$oid": mongo_id_for_database(id, type)}` computed
from the **post-merge** `id` and `type`. Returns `none` for a skipped
entry. -/
def unpackEntry (add_mongo_id : Bool) (e : Entry) : Except PyErr (Option Dict) := do
  let p : Dict := match e with
    | .typed r => r.toRaw
    | .raw d => d
  let idv ← match dGet "id" p with
    | some v => Except.ok v
    | none => Except.error (.keyError "id")
  if idv = JVal.str "exmpl" then
    return none
  let popped := dGet "attributes" p
  let p1 := dRemove "attributes" p
  let a : ADict ← match popped with
    | none => Except.ok []
    | some (.obj a) => Except.ok a
    | some _ => Except.error .typeError
  let p2 := dUpdate p1 (a.map (fun q => (q.1, q.2.toJ)))
  if add_mongo_id then
    let idv2 ← match dGet "id" p2 with
      | some v => Except.ok v
      | none => Except.error (.keyError "id")
    let tyv2 ← match dGet "type" p2 with
      | some v => Except.ok v
      | none => Except.error (.keyError "type")
    let oid ← mongo_id_for_database (pyStr idv2) (pyStr tyv2)
    return some (dSet "_id" (.obj [("$oid", .str oid)]) p2)
  else
    return some p2

/-- `_unpack_providers`: process the entries of `providers.data` in
order, appending each non-skipped record. -/
def _unpack_providers (data : List Entry) (add_mongo_id : Bool) :
    Except PyErr (List Dict) :=
  match data with
  | [] => .ok []
  | e :: rest => do
    let r ← unpackEntry add_mongo_id e
    let tail ← _unpack_providers rest add_mongo_id
    match r with
    | none => return tail
    | some d => return d :: tail

/-! ## `get_providers` -/

/-- The hard-coded default registry URLs (`PROVIDER_LIST_URLS`). -/
def PROVIDER_LIST_URLS : List String :=
  ["https://providers.optimade.org/v1/links",
   "https://raw.githubusercontent.com/Materials-Consortia/providers/master/src/links/v1/providers.json"]

/-- Python `str.endswith`: code-point suffix test. -/
def pyEndswith (s suffix : String) : Bool :=
  suffix.data.isSuffixOf s.data

/-- Lines 69–72 of `get_providers`: `remote_providers = [source]`,
extended with `source + "/v1/links"` and `source + "/links"` when
`not source.endswith("/v1/links") or not source.endswith("/links")`. -/
def remoteCandidates (source : String) : List String :=
  [source] ++
    (if !(pyEndswith source "/v1/links") || !(pyEndswith source "/links") then
      [source ++ "/v1/links", source ++ "/links"]
    else [])

/-- The outcome `LinksResponse(**requests.get(url).json())` would have
for one URL: validated data, one of the three **caught** exceptions
(`ConnectionError`, `ConnectTimeout`, `json.JSONDecodeError`), or an
uncaught exception (e.g. a pydantic `ValidationError`). -/
inductive FetchOutcome where
  | ok (d : List Entry)
  | caught
  | raise (e : PyErr)

/-- Lines 74–84 of `get_providers`: try each candidate URL in order;
a caught failure moves to the next candidate, a success breaks out of
the loop, anything else propagates. `none` means the loop finished with
the local variable `providers` still unassigned. -/
def tryCandidates (fetch : String → FetchOutcome) :
    List String → Except PyErr (Option (List Entry))
  | [] => .ok none
  | u :: rest =>
    match fetch u with
    | .ok d => .ok (some d)
    | .caught => tryCandidates fetch rest
    | .raise e => .error e

/-- The `source` argument of `get_providers`: absent, an HTTP URL, or a
file path (represented by the outcome of opening, JSON-decoding and
validating the file, since that branch does no candidate iteration). -/
inductive SourceArg where
  | noSource
  | url (s : String)
  | path (content : Except PyErr (List Entry))

/-- `get_providers`. After the candidate loop the code runs
`if not providers:`. A bound `providers` is a pydantic model object,
which defines neither `__bool__` nor `__len__` and is therefore always
truthy, so the whole fallback block (lines 87–97: the
`RuntimeError` naming the source, and the import of the bundled
`optimade.server.data.providers` list) is unreachable; when no
assignment to `providers` ever ran, the test itself raises
`UnboundLocalError`. In the `Path` branch the candidate loop still runs
over `PROVIDER_LIST_URLS`, and a remote success overwrites the
file-loaded data. -/
def get_providers (fetch : String → FetchOutcome) (add_mongo_id : Bool)
    (source : SourceArg) : Except PyErr (List Dict) :=
  match source with
  | .path c => do
    let d0 ← c
    let fetched ← tryCandidates fetch PROVIDER_LIST_URLS
    _unpack_providers (fetched.getD d0) add_mongo_id
  | .url s => do
    let fetched ← tryCandidates fetch (remoteCandidates s)
    match fetched with
    | some d => _unpack_providers d add_mongo_id
    | none => Except.error (.unboundLocalError "providers")
  | .noSource => do
    let fetched ← tryCandidates fetch PROVIDER_LIST_URLS
    match fetched with
    | some d => _unpack_providers d add_mongo_id
    | none => Except.error (.unboundLocalError "providers")

/-! ## `get_child_database_links` -/

/-- What `requests.get(links_endp)` returns: a status code, a body
(`links.content`, also what `.json()` would parse), and the outcome of
`LinksResponse(**links.json())` on it — `some data` when JSON-decoding
and validation succeed, `none` when they raise (those exceptions are
not caught here and propagate). -/
structure HttpResponse where
  status_code : Nat
  content : String
  body : Option (List Entry)
deriving DecidableEq, Repr

/-- Lines 176–181, the first (typed) list comprehension: for each entry
read `link.attributes.link_type` and `link.attributes.base_url`.
Reaching a raw dict raises `AttributeError` (a dict has no
`.attributes`), discarding any partial result. -/
def typedFilter : List Entry → Except PyErr (List LinksResource)
  | [] => .ok []
  | .raw _ :: _ => .error .attributeError
  | .typed r :: rest =>
    if r.attributes.link_type = LinkType.child ∧ r.attributes.base_url.isSome then
      (typedFilter rest).map (r :: ·)
    else
      typedFilter rest

/-- `link.get("attributes", {})` followed by `.get(...)` on the result:
an absent key defaults to the empty dict; a present non-mapping value
makes the inner `.get` raise `AttributeError`. -/
def rawGetAttrs (d : Dict) : Except PyErr ADict :=
  match dGet "attributes" d with
  | none => .ok []
  | some (.obj a) => .ok a
  | some _ => .error .attributeError

/-- The condition of the second (raw) comprehension:
`link.get("attributes", {}).get("link_type", None) == "child" and
link.get("attributes", {}).get("base_url") is not None`. -/
def rawCond (d : Dict) : Except PyErr Bool := do
  let a ← rawGetAttrs d
  pure (((dGet "link_type" a).getD SVal.null = SVal.str "child") ∧
        ((dGet "base_url" a).getD SVal.null ≠ SVal.null) : Bool)

/-- Lines 183–188, the second (raw) list comprehension, run when the
typed one raised `AttributeError`: for each entry use `dict.get`.
Reaching a typed resource raises `AttributeError` (a pydantic model has
no `.get`). -/
def rawFilter : List Entry → Except PyErr (List Entry)
  | [] => .ok []
  | .typed _ :: _ => .error .attributeError
  | .raw d :: rest => do
    if (← rawCond d) then
      (rawFilter rest).map (Entry.raw d :: ·)
    else
      rawFilter rest

/-- Lines 174–188: the typed comprehension, falling back to the raw one
when (and only when) the typed one raised `AttributeError`. -/
def extractChildLinks (data : List Entry) : Except PyErr (List Entry) :=
  match typedFilter data with
  | .ok l => .ok (l.map Entry.typed)
  | .error .attributeError => rawFilter data
  | .error e => .error e

/-- Lines 161–188 of `get_child_database_links`, after `_id` and
`base_url` have been extracted: the `base_url is None` guard, the GET of
`base_url + "/v1/links"` (concatenating a non-string raises
`TypeError`), the non-200 `RuntimeError` (whose message interpolates the
endpoint, the provider id and `links.content`, but not the status code),
validation, and the child filtering. -/
def childCore (http : String → HttpResponse) (idv base_url : JVal) :
    Except PyErr (List Entry) :=
  if base_url = JVal.null then
    .error (.runtimeError ("Provider " ++ pyStr idv ++ " provides no base URL."))
  else
    match base_url with
    | .str s =>
      let links_endp := s ++ "/v1/links"
      let links := http links_endp
      if links.status_code ≠ 200 then
        .error (.runtimeError
          ("Invalid response from " ++ links_endp ++ " for provider " ++
            pyStr idv ++ ": " ++ pyBytesRepr links.content ++ "."))
      else
        match links.body with
        | none => .error .validationError
        | some data => extractChildLinks data
    | _ => .error .typeError

/-- The observable outcome of one `get_child_database_links` call: its
return-or-raise, and the state the caller's `provider` argument is left
in (the raw-dict branch mutates it via `provider.pop`). -/
structure ChildCall where
  result : Except PyErr (List Entry)
  provider : Entry
deriving DecidableEq, Repr

/-- `get_child_database_links`. The typed branch reads
`provider.id` and `str(provider.attributes.base_url)` (Python `str` of
`None` is the string `"None"`, so the `base_url is None` guard can never
fire for a typed resource). The raw branch runs `provider.pop("id")`
and `provider.pop("base_url")`, which raise `KeyError` on a missing key
and **remove** the keys from the caller's dict. -/
def get_child_database_links (http : String → HttpResponse)
    (provider : Entry) : ChildCall :=
  match provider with
  | .typed r =>
    let base_url := match r.attributes.base_url with
      | some u => u
      | none => "None"
    ⟨childCore http (.str r.id) (.str base_url), provider⟩
  | .raw d =>
    match dGet "id" d with
    | none => ⟨.error (.keyError "id"), .raw d⟩
    | some idv =>
      let d1 := dRemove "id" d
      match dGet "base_url" d1 with
      | none => ⟨.error (.keyError "base_url"), .raw d1⟩
      | some bv => ⟨childCore http idv bv, .raw (dRemove "base_url" d1)⟩

/-- True when every entry of the list is a typed resource. -/
def allTyped (l : List Entry) : Bool :=
  l.all fun e => match e with | .typed _ => true | .raw _ => false

/-- A raw entry whose `attributes`, when present, is a mapping — the only
raw shape on which the raw extraction path does not itself raise. -/
def rawWF : Entry → Bool
  | .typed _ => false
  | .raw d =>
    match dGet "attributes" d with
    | none => true
    | some (.obj _) => true
    | some _ => false

/-- True when every entry of the list is a well-formed raw mapping. -/
def allRawWF (l : List Entry) : Bool := l.all rawWF

/-- Modelled from the spec: "Filters `data` to entries where
`link_type == child` AND `base_url` is non-null" — the semantic filter both
extraction paths are claimed to implement. -/
def childKeepSpec : Entry → Bool
  | .typed r =>
    decide (r.attributes.link_type = LinkType.child ∧ r.attributes.base_url.isSome)
  | .raw d =>
    match dGet "attributes" d with
    | some (.obj a) =>
      decide ((dGet "link_type" a).getD SVal.null = SVal.str "child" ∧
              (dGet "base_url" a).getD SVal.null ≠ SVal.null)
    | some _ => false
    | none => false

/-- An entry `_unpack_providers` can process without raising when
`add_mongo_id` is off: a typed resource, or a raw mapping with an `id` key
whose `attributes` (when present) is a mapping. -/
def entryWF : Entry → Bool
  | .typed _ => true
  | .raw d =>
    (dGet "id" d).isSome &&
      (match dGet "attributes" d with
       | none => true
       | some (.obj _) => true
       | some _ => false)

/-- The pre-merge skip test of `_unpack_providers`: the **top-level** id of
the entry is `"exmpl"`. -/
def preExmpl : Entry → Bool
  | .typed r => decide (r.id = "exmpl")
  | .raw d => decide (dGet "id" d = some (.str "exmpl"))

/-- The record an entry becomes: the nested `attributes` mapping popped and
merged into the top level (for well-formed entries; a non-mapping
`attributes` value cannot occur for them). -/
def normalizeEntry (e : Entry) : Dict :=
  let p : Dict := match e with
    | .typed r => r.toRaw
    | .raw d => d
  let a : ADict := match dGet "attributes" p with
    | some (.obj a) => a
    | _ => []
  dUpdate (dRemove "attributes" p) (a.map fun q => (q.1, q.2.toJ))

/-- An entry whose nested `attributes` mapping (when present and a mapping)
does not itself contain a key named `"attributes"`. -/
def attrFreeEntry : Entry → Bool
  | .typed _ => true
  | .raw d =>
    match dGet "attributes" d with
    | some (.obj a) => (dGet "attributes" a).isNone
    | _ => true

/-! ## Claim theorems -/

/-- C1: when every URL candidate fails with a caught error, `get_providers`
does **not** raise the `RuntimeError` naming an explicit source, and with no
source it does **not** fall back to the bundled list: in both cases the local
variable `providers` was never assigned, so the `if not providers:` test
itself raises `UnboundLocalError`; the documented fallback block is
unreachable. -/
theorem c1_all_candidates_fail_raises_unbound_local :
    get_providers (fun _ => .caught) false (.url "http://example.org") =
      .error (.unboundLocalError "providers") ∧
    get_providers (fun _ => .caught) false .noSource =
      .error (.unboundLocalError "providers") := by decide

/-- C2: a source that ends in the recognized suffix `"/links"` (but not in
`"/v1/links"`) is **not** tried alone: the condition
`not source.endswith("/v1/links") or not source.endswith("/links")` is true
for it, so the two extra candidates are appended, contrary to the claim that
the candidate list is exactly `[source]`. -/
theorem c2_links_suffix_still_extended :
    pyEndswith "https://example.org/links" "/links" = true ∧
    remoteCandidates "https://example.org/links" =
      ["https://example.org/links", "https://example.org/links/v1/links",
       "https://example.org/links/links"] := by decide

/-- C3: a typed provider whose `base_url` is `None` does **not** fail with a
`ConfigurationError` before any network call: `str(None)` is the string
`"None"`, so the guard never fires and a GET of `"None/v1/links"` is
performed (the outcome depends on the HTTP environment: a 500 yields the
non-200 `RuntimeError` naming `None/v1/links`, a 200 yields a normal result).
A raw mapping with `base_url` absent fails with `KeyError`, not a
configuration error. -/
theorem c3_null_base_url_not_guarded :
    (get_child_database_links (fun _ => ⟨500, "x", none⟩)
        (.typed ⟨"p", "links", ⟨"P", none, .child⟩⟩)).result =
      .error (.runtimeError ("Invalid response from None/v1/links for provider p: " ++
        pyBytesRepr "x" ++ ".")) ∧
    (get_child_database_links (fun _ => ⟨200, "", some []⟩)
        (.typed ⟨"p", "links", ⟨"P", none, .child⟩⟩)).result = .ok [] ∧
    (get_child_database_links (fun _ => ⟨500, "x", none⟩)
        (.raw [("id", .str "p")])).result = .error (.keyError "base_url") := by decide

/-- C4 counterexample: the non-200 `RuntimeError` does not carry the status
code — two responses that differ only in their status (500 vs 404) produce
**identical** errors, so no status code can be recovered from the error. -/
theorem c4_counterexample_status_not_carried :
    (get_child_database_links (fun _ => ⟨500, "oops", none⟩)
        (.raw [("id", .str "p"), ("base_url", .str "http://x")])).result =
      .error (.runtimeError ("Invalid response from http://x/v1/links for provider p: " ++
        pyBytesRepr "oops" ++ ".")) ∧
    (get_child_database_links (fun _ => ⟨404, "oops", none⟩)
        (.raw [("id", .str "p"), ("base_url", .str "http://x")])).result =
      (get_child_database_links (fun _ => ⟨500, "oops", none⟩)
        (.raw [("id", .str "p"), ("base_url", .str "http://x")])).result := by decide

/-- C4 (amended): for every HTTP response with status code not equal to 200,
`get_child_database_links` fails with a `RuntimeError` that carries the
endpoint, the provider id and the response body — but not the status code. -/
theorem c4_amended_error_carries_body_not_status
    (http : String → HttpResponse) (i b : String)
    (h : (http (b ++ "/v1/links")).status_code ≠ 200) :
    (get_child_database_links http (.raw [("id", .str i), ("base_url", .str b)])).result =
      .error (.runtimeError ("Invalid response from " ++ (b ++ "/v1/links") ++
        " for provider " ++ i ++ ": " ++
        pyBytesRepr (http (b ++ "/v1/links")).content ++ ".")) := by
  simp [get_child_database_links, dGet, dRemove, childCore, pyStr, h]

/-- Witness for the amended C4 at a concrete 500 response. -/
theorem c4_amended_witness :
    (get_child_database_links (fun _ => ⟨500, "oops", none⟩)
        (.raw [("id", .str "q"), ("base_url", .str "http://y")])).result =
      .error (.runtimeError ("Invalid response from " ++ ("http://y" ++ "/v1/links") ++
        " for provider " ++ "q" ++ ": " ++ pyBytesRepr "oops" ++ ".")) :=
  c4_amended_error_carries_body_not_status (fun _ => ⟨500, "oops", none⟩)
    "q" "http://y" (by decide)

/-- C5 counterexample: a links response whose `data` mixes one typed and one
raw entry — both of them child entries with non-null `base_url` — is not
returned at all: the typed comprehension raises `AttributeError` on the raw
dict, and the raw comprehension then raises `AttributeError` on the typed
resource, so the whole call fails instead of yielding the two entries. -/
theorem c5_counterexample_mixed_entries_fail :
    (get_child_database_links
      (fun _ => ⟨200, "", some
        [.typed ⟨"a", "links", ⟨"A", some "http://a", .child⟩⟩,
         .raw [("id", .str "b"), ("attributes", .obj
           [("link_type", .str "child"), ("base_url", .str "http://b")])]]⟩)
      (.raw [("id", .str "p"), ("base_url", .str "http://x")])).result =
      .error .attributeError := by decide

/-- C9 counterexample: a raw-mapping provider is mutated by the call —
`provider.pop` removes `id` and `base_url` from the caller's dict — so the
first call succeeds but repeating the call with the (mutated) provider
record raises `KeyError`, refuting idempotence. -/
theorem c9_counterexample_raw_provider_mutated :
    (get_child_database_links (fun _ => ⟨200, "", some []⟩)
        (.raw [("id", .str "p"), ("base_url", .str "http://x")])).result = .ok [] ∧
    (get_child_database_links (fun _ => ⟨200, "", some []⟩)
        (.raw [("id", .str "p"), ("base_url", .str "http://x")])).provider ≠
      .raw [("id", .str "p"), ("base_url", .str "http://x")] ∧
    (get_child_database_links (fun _ => ⟨200, "", some []⟩)
        ((get_child_database_links (fun _ => ⟨200, "", some []⟩)
          (.raw [("id", .str "p"), ("base_url", .str "http://x")])).provider)).result =
      .error (.keyError "id") := by decide

/-- C9 (amended): a call with a typed `LinksResource` provider leaves the
provider unchanged and behaves identically when repeated; a call with a
raw-mapping provider removes the `id` and `base_url` keys from the caller's
mapping, and a call on the mutated (now empty) mapping raises `KeyError`. -/
theorem c9_amended_typed_idempotent_raw_mutated :
    (∀ (http : String → HttpResponse) (r : LinksResource),
      (get_child_database_links http (.typed r)).provider = .typed r ∧
      (get_child_database_links http
          ((get_child_database_links http (.typed r)).provider)).result =
        (get_child_database_links http (.typed r)).result) ∧
    (∀ (http : String → HttpResponse) (i b : JVal),
      (get_child_database_links http
        (.raw [("id", i), ("base_url", b)])).provider = .raw []) ∧
    (∀ http : String → HttpResponse,
      (get_child_database_links http (.raw [])).result =
        .error (.keyError "id")) := by
  refine ⟨fun http r => ⟨rfl, rfl⟩, fun http i b => ?_, fun http => rfl⟩
  simp [get_child_database_links, dGet, dRemove]

/-- C6 counterexample: an entry whose top-level `id` is `"x"` but whose
nested `attributes` mapping carries `id = "exmpl"` passes the skip test
(which reads the **pre-merge** id) and is emitted with `id == "exmpl"` after
the merge, so the output does contain a record with id `"exmpl"`. -/
theorem c6_counterexample_attributes_override_emits_exmpl :
    _unpack_providers
        [.raw [("id", .str "x"), ("type", .str "links"),
               ("attributes", .obj [("id", .str "exmpl")])]] false =
      .ok [[("id", .str "exmpl"), ("type", .str "links")]] ∧
    dGet "id" [("id", JVal.str "exmpl"), ("type", JVal.str "links")] =
      some (.str "exmpl") := by decide

/-- C7 counterexample: when the nested `attributes` mapping itself contains a
key named `"attributes"`, `d.update(d.pop("attributes", {}))` re-inserts that
key, so the output record still has an `"attributes"` key. -/
theorem c7_counterexample_inner_attributes_key_survives :
    _unpack_providers
        [.raw [("id", .str "x"),
               ("attributes", .obj [("attributes", .str "inner")])]] false =
      .ok [[("id", .str "x"), ("attributes", .str "inner")]] ∧
    (dGet "attributes" [("id", JVal.str "x"), ("attributes", JVal.str "inner")]).isSome =
      true := by decide

/-- C8 counterexample: identifier synthesis is not never-failing — a 12
character input whose UTF-8 encoding is longer than 12 bytes makes
`ObjectId` raise `InvalidId`. -/
theorem c8_counterexample_non_ascii_fails :
    mongo_id_for_database "éééééééééééé" "" = .error .bsonInvalidId ∧
    (mongoOid "éééééééééééé" "").length = 12 := by decide

/-- The truncated/padded string always has exactly 12 characters. -/
theorem mongoOid_length (i t : String) : (mongoOid i t).length = 12 := by
  unfold mongoOid
  dsimp only
  split
  next h => rw [List.length_take]; omega
  next h =>
    split
    next h2 => rw [List.length_append, List.length_replicate]; omega
    next h2 => omega

/-- On all-ASCII characters the UTF-8 encoding is one byte per character. -/
theorem flatMap_utf8_ascii (l : List Char) (h : ∀ c ∈ l, c.toNat < 128) :
    l.flatMap utf8BytesChar = l.map Char.toNat := by
  induction l with
  | nil => rfl
  | cons c rest ih =>
    have hc : c.toNat < 128 := h c (by simp)
    have hrest : ∀ x ∈ rest, x.toNat < 128 := fun x hx => h x (by simp [hx])
    simp [List.flatMap_cons, utf8BytesChar, hc, ih hrest]

/-- C8 (amended): identifier synthesis is pure and deterministic, and for
every pair of strings whose truncated/padded 12-character concatenation is
ASCII, it succeeds and its result encodes exactly those 12 characters as 12
bytes; when a character of the 12-character payload is non-ASCII the UTF-8
encoding exceeds 12 bytes and the synthesis fails (`InvalidId`). -/
theorem c8_amended_ascii_exactly_twelve_bytes (i t : String)
    (h : ∀ c ∈ mongoOid i t, c.toNat < 128) :
    mongo_id_for_database i t =
      .ok (hexString ((mongoOid i t).map Char.toNat)) ∧
    ((mongoOid i t).flatMap utf8BytesChar).length = 12 ∧
    (mongoOid i t).length = 12 ∧
    (mongoOid i t).flatMap utf8BytesChar = (mongoOid i t).map Char.toNat := by
  have h1 := mongoOid_length i t
  have h2 := flatMap_utf8_ascii (mongoOid i t) h
  have h3 : ((mongoOid i t).flatMap utf8BytesChar).length = 12 := by
    rw [h2, List.length_map, h1]
  refine ⟨?_, h3, h1, h2⟩
  unfold mongo_id_for_database
  rw [if_pos h3, h2]

/-- Witness for the amended C8 at `("example", "db")`. -/
theorem c8_amended_witness :
    mongo_id_for_database "example" "db" =
      .ok (hexString ((mongoOid "example" "db").map Char.toNat)) ∧
    ((mongoOid "example" "db").flatMap utf8BytesChar).length = 12 ∧
    (mongoOid "example" "db").length = 12 ∧
    (mongoOid "example" "db").flatMap utf8BytesChar =
      (mongoOid "example" "db").map Char.toNat :=
  c8_amended_ascii_exactly_twelve_bytes "example" "db" (by decide)

/-- C10: in `_unpack_providers`, when the nested `attributes` mapping shares
the keys `id` and `type` with the top level, the attribute values overwrite
the pre-existing top-level values in the output record; the `_id` synthesis
reads the **post-merge** `id` and `type`, while the `"exmpl"` skip test reads
the **pre-merge** top-level `id` (so an entry whose top-level id is
`"exmpl"` is skipped even though its post-merge id would differ, and an
entry whose top-level id differs is processed even when its post-merge id is
`"exmpl"`). -/
theorem c10_attributes_precedence_and_id_synthesis
    (i ty i2 ty2 m : String)
    (hi : i ≠ "exmpl")
    (hm : mongo_id_for_database i2 ty2 = .ok m) :
    unpackEntry true (.raw [("id", .str i), ("type", .str ty),
        ("attributes", .obj [("id", .str i2), ("type", .str ty2)])]) =
      .ok (some [("id", .str i2), ("type", .str ty2),
                 ("_id", .obj [("$oid", .str m)])]) ∧
    unpackEntry true (.raw [("id", .str "exmpl"), ("type", .str ty),
        ("attributes", .obj [("id", .str i2), ("type", .str ty2)])]) =
      .ok none := by
  constructor
  · simp [unpackEntry, dGet, dRemove, dUpdate, dSet, SVal.toJ, pyStr, hi, hm,
      bind, Except.bind, pure, Except.pure, Except.map, Functor.map]
  · simp [unpackEntry, dGet, bind, Except.bind, pure, Except.pure]

/-- Witness for C10: the attribute id `"exmpl"` overwrites the top-level id
`"x"`, the skip test (pre-merge) does not fire, and the `_id` is synthesized
from the post-merge `("exmpl", "db")`; with top-level id `"exmpl"` the entry
is skipped. -/
theorem c10_witness :
    unpackEntry true (.raw [("id", .str "x"), ("type", .str "links"),
        ("attributes", .obj [("id", .str "exmpl"), ("type", .str "db")])]) =
      .ok (some [("id", .str "exmpl"), ("type", .str "db"),
                 ("_id", .obj [("$oid", .str "65786d706c64623030303030")])]) ∧
    unpackEntry true (.raw [("id", .str "exmpl"), ("type", .str "links"),
        ("attributes", .obj [("id", .str "exmpl"), ("type", .str "db")])]) =
      .ok none :=
  c10_attributes_precedence_and_id_synthesis "x" "links" "exmpl" "db"
    "65786d706c64623030303030" (by decide) (by decide)

/-- On all-typed data the typed comprehension returns exactly the entries
selected by the semantic filter, in order. -/
theorem typedFilter_map_eq (data : List Entry) (h : allTyped data = true) :
    (typedFilter data).map (List.map Entry.typed) = .ok (data.filter childKeepSpec) := by
  induction data with
  | nil => rfl
  | cons e rest ih =>
    cases e with
    | raw d => simp [allTyped] at h
    | typed r =>
      have hrest : allTyped rest = true := by
        simp [allTyped, List.all_cons] at h
        simpa [allTyped] using h
      by_cases hc : (r.attributes.link_type = LinkType.child ∧ r.attributes.base_url.isSome)
      · have hk : childKeepSpec (.typed r) = true := by simp [childKeepSpec, hc]
        cases ht : typedFilter rest with
        | error e =>
          have ihh := ih hrest
          rw [ht] at ihh
          simp [Except.map] at ihh
        | ok l =>
          have ihh := ih hrest
          rw [ht] at ihh
          simp [Except.map] at ihh
          simp [typedFilter, hc, ht, List.filter_cons, hk, Except.map, ihh]
      · have hk : childKeepSpec (.typed r) = false := by simp [childKeepSpec, hc]
        simp [typedFilter, hc, List.filter_cons, hk, ih hrest]

/-- On a well-formed raw entry the raw comprehension's condition computes
the semantic filter. -/
theorem rawCond_eq (d : Dict) (h : rawWF (.raw d) = true) :
    rawCond d = .ok (childKeepSpec (.raw d)) := by
  cases hA : dGet "attributes" d with
  | none =>
    simp [rawCond, rawGetAttrs, childKeepSpec, hA, bind, Except.bind,
      pure, Except.pure, dGet]
  | some v =>
    cases v with
    | obj a =>
      simp [rawCond, rawGetAttrs, childKeepSpec, hA, bind, Except.bind,
        pure, Except.pure]
    | null => simp [rawWF, hA] at h
    | str s => simp [rawWF, hA] at h

/-- On all-raw, well-formed data the raw comprehension returns exactly the
entries selected by the semantic filter, in order. -/
theorem rawFilter_eq (data : List Entry) (h : allRawWF data = true) :
    rawFilter data = .ok (data.filter childKeepSpec) := by
  induction data with
  | nil => rfl
  | cons e rest ih =>
    cases e with
    | typed r => simp [allRawWF, rawWF, List.all_cons] at h
    | raw d =>
      rw [allRawWF, List.all_cons, Bool.and_eq_true] at h
      have hc := rawCond_eq d h.1
      have ihr := ih h.2
      cases hk : childKeepSpec (.raw d) with
      | true =>
        simp [rawFilter, bind, Except.bind, hc, hk, List.filter_cons, ihr,
          Except.map, pure, Except.pure]
      | false =>
        simp [rawFilter, bind, Except.bind, hc, hk, List.filter_cons, ihr,
          pure, Except.pure]

/-- C5 (amended): the two extraction paths of `get_child_database_links`
yield identical semantics on **homogeneous** data: for a links response
whose `data` is all typed resources, or all raw mappings whose `attributes`
(when present) is a mapping, the returned entries are exactly those whose
`link_type` is `child` and whose `base_url` is non-null, in original order.
(For data mixing the two representations the call instead raises
`AttributeError`: both comprehensions fail.) -/
theorem c5_amended_homogeneous_paths_agree (data : List Entry) :
    (allTyped data = true →
      extractChildLinks data = .ok (data.filter childKeepSpec)) ∧
    (allRawWF data = true →
      extractChildLinks data = .ok (data.filter childKeepSpec)) := by
  constructor
  · intro h
    have hm := typedFilter_map_eq data h
    unfold extractChildLinks
    cases ht : typedFilter data with
    | error e =>
      rw [ht] at hm
      simp [Except.map] at hm
    | ok l =>
      rw [ht] at hm
      simp [Except.map] at hm
      simp [hm]
  · intro h
    cases data with
    | nil => rfl
    | cons e rest =>
      cases e with
      | typed r => simp [allRawWF, rawWF, List.all_cons] at h
      | raw d => exact rawFilter_eq (.raw d :: rest) h

/-- Witness for the amended C5: one all-typed and one all-raw data list,
each containing one child entry and one non-child or null-url entry. -/
theorem c5_amended_witness :
    extractChildLinks
        [Entry.typed ⟨"a", "links", ⟨"A", some "http://a", LinkType.child⟩⟩,
         Entry.typed ⟨"b", "links", ⟨"B", none, LinkType.child⟩⟩] =
      .ok ([Entry.typed ⟨"a", "links", ⟨"A", some "http://a", LinkType.child⟩⟩,
            Entry.typed ⟨"b", "links", ⟨"B", none, LinkType.child⟩⟩].filter
              childKeepSpec) ∧
    extractChildLinks
        [Entry.raw [("id", .str "c"), ("attributes", .obj
           [("link_type", .str "child"), ("base_url", .str "http://c")])],
         Entry.raw [("id", .str "d"), ("attributes", .obj
           [("link_type", .str "root"), ("base_url", .str "http://d")])]] =
      .ok ([Entry.raw [("id", .str "c"), ("attributes", .obj
             [("link_type", .str "child"), ("base_url", .str "http://c")])],
            Entry.raw [("id", .str "d"), ("attributes", .obj
             [("link_type", .str "root"), ("base_url", .str "http://d")])]].filter
              childKeepSpec) :=
  ⟨(c5_amended_homogeneous_paths_agree _).1 (by decide),
   (c5_amended_homogeneous_paths_agree _).2 (by decide)⟩

/-- One `_unpack_providers` iteration with `add_mongo_id` off: a skip for a
pre-merge id of `"exmpl"`, the merged record otherwise. -/
theorem unpackEntry_false_wf (e : Entry) (h : entryWF e = true) :
    unpackEntry false e =
      .ok (if preExmpl e then none else some (normalizeEntry e)) := by
  cases e with
  | typed r =>
    by_cases hid : r.id = "exmpl"
    · simp [unpackEntry, LinksResource.toRaw, dGet, preExmpl, hid,
        bind, Except.bind, pure, Except.pure]
    · simp [unpackEntry, LinksResource.toRaw, dGet, preExmpl, normalizeEntry,
        hid, bind, Except.bind, pure, Except.pure]
  | raw d =>
    rw [entryWF, Bool.and_eq_true] at h
    obtain ⟨h1, h2⟩ := h
    cases hg : dGet "id" d with
    | none => rw [hg] at h1; simp at h1
    | some idv =>
      by_cases hid : idv = JVal.str "exmpl"
      · simp [unpackEntry, hg, preExmpl, hid, bind, Except.bind, pure, Except.pure]
      · cases hA : dGet "attributes" d with
        | none =>
          simp [unpackEntry, hg, hid, hA, preExmpl, normalizeEntry,
            bind, Except.bind, pure, Except.pure]
        | some v =>
          cases v with
          | obj a =>
            simp [unpackEntry, hg, hid, hA, preExmpl, normalizeEntry,
              bind, Except.bind, pure, Except.pure]
          | null => rw [hA] at h2; simp at h2
          | str s => rw [hA] at h2; simp at h2

/-- With `add_mongo_id` off, `_unpack_providers` on well-formed data is the
merge step mapped over the entries whose pre-merge id is not `"exmpl"`,
in original order. -/
theorem unpack_false_map_filter (data : List Entry) (h : data.all entryWF = true) :
    _unpack_providers data false =
      .ok ((data.filter (fun e => !preExmpl e)).map normalizeEntry) := by
  induction data with
  | nil => rfl
  | cons e rest ih =>
    rw [List.all_cons, Bool.and_eq_true] at h
    have he := unpackEntry_false_wf e h.1
    have ihr := ih h.2
    cases hp : preExmpl e with
    | true =>
      simp [hp] at he
      simp [_unpack_providers, he, ihr, hp, bind, Except.bind, pure, Except.pure,
        List.filter_cons]
    | false =>
      simp [hp] at he
      simp [_unpack_providers, he, ihr, hp, bind, Except.bind, pure, Except.pure,
        List.filter_cons]

/-- C6 (amended): `_unpack_providers` skips exactly the entries whose
**pre-merge top-level** id is `"exmpl"`: the output (here with the `_id`
synthesis off) is the merge step mapped over the remaining entries in
original order, and its length is the input length minus the count of
entries whose top-level id is `"exmpl"`. (A record whose nested
`attributes` mapping carries `id = "exmpl"` is still emitted, with
post-merge id `"exmpl"`.) -/
theorem c6_amended_skip_by_premerge_id (data : List Entry)
    (h : data.all entryWF = true) :
    _unpack_providers data false =
      .ok ((data.filter (fun e => !preExmpl e)).map normalizeEntry) ∧
    ((data.filter (fun e => !preExmpl e)).map normalizeEntry).length =
      data.length - data.countP preExmpl := by
  refine ⟨unpack_false_map_filter data h, ?_⟩
  rw [List.length_map, List.countP_eq_length_filter]
  have htot := List.length_eq_length_filter_add (l := data) preExmpl
  omega

/-- Witness for the amended C6: one `"exmpl"` raw entry, one kept typed
entry. -/
theorem c6_amended_witness :
    _unpack_providers
        [Entry.raw [("id", .str "exmpl"), ("type", .str "links")],
         Entry.typed ⟨"a", "links", ⟨"A", some "http://a", LinkType.child⟩⟩] false =
      .ok (([Entry.raw [("id", .str "exmpl"), ("type", .str "links")],
             Entry.typed ⟨"a", "links", ⟨"A", some "http://a", LinkType.child⟩⟩].filter
              (fun e => !preExmpl e)).map normalizeEntry) ∧
    (([Entry.raw [("id", .str "exmpl"), ("type", .str "links")],
       Entry.typed ⟨"a", "links", ⟨"A", some "http://a", LinkType.child⟩⟩].filter
        (fun e => !preExmpl e)).map normalizeEntry).length =
      [Entry.raw [("id", .str "exmpl"), ("type", .str "links")],
       Entry.typed ⟨"a", "links", ⟨"A", some "http://a", LinkType.child⟩⟩].length -
      [Entry.raw [("id", .str "exmpl"), ("type", .str "links")],
       Entry.typed ⟨"a", "links", ⟨"A", some "http://a", LinkType.child⟩⟩].countP preExmpl :=
  c6_amended_skip_by_premerge_id _ (by decide)

/-- Removing a key makes it unreadable. -/
theorem dGet_dRemove_self (k : String) (d : List (String × α)) :
    dGet k (dRemove k d) = none := by
  induction d with
  | nil => rfl
  | cons p rest ih =>
    by_cases hp : p.1 = k
    · simpa [dRemove, List.filter_cons, hp] using ih
    · simpa [dRemove, List.filter_cons, dGet, hp] using ih

/-- Assigning one key leaves the others unchanged. -/
theorem dGet_dSet_ne (k k2 : String) (v : α) (d : List (String × α))
    (h : k ≠ k2) : dGet k (dSet k2 v d) = dGet k d := by
  have hmap : ∀ l : List (String × α),
      dGet k (l.map (fun p => if p.1 = k2 then (k2, v) else p)) = dGet k l := by
    intro l
    induction l with
    | nil => rfl
    | cons p rest ih =>
      simp only [List.map_cons]
      by_cases hp : p.1 = k2
      · rw [if_pos hp]
        simp only [dGet]
        rw [hp, if_neg (Ne.symm h), if_neg (Ne.symm h)]
        exact ih
      · rw [if_neg hp]
        simp only [dGet]
        rw [ih]
  have happ : ∀ l : List (String × α), dGet k (l ++ [(k2, v)]) = dGet k l := by
    intro l
    induction l with
    | nil => simp [dGet, Ne.symm h]
    | cons p rest ih =>
      by_cases hp : p.1 = k
      · simp [dGet, hp]
      · simp [dGet, hp, ih]
  unfold dSet
  split
  · exact hmap d
  · exact happ d

/-- Reading through a value-only map. -/
theorem dGet_map_snd (k : String) (f : β → γ) (a : List (String × β)) :
    dGet k (a.map fun q => (q.1, f q.2)) = (dGet k a).map f := by
  induction a with
  | nil => rfl
  | cons p rest ih =>
    by_cases hp : p.1 = k
    · simp [dGet, hp]
    · simp [dGet, hp, ih]

/-- A key absent from both dicts is absent from their merge. -/
theorem dGet_dUpdate_none (k : String) (d e : List (String × α))
    (hd : dGet k d = none) (he : dGet k e = none) :
    dGet k (dUpdate d e) = none := by
  induction e generalizing d with
  | nil => exact hd
  | cons q rest ih =>
    rw [dGet] at he
    by_cases hqk : q.1 = k
    · rw [if_pos hqk] at he
      exact absurd he (by simp)
    · rw [if_neg hqk] at he
      have hd2 : dGet k (dSet q.1 q.2 d) = none := by
        rw [dGet_dSet_ne k q.1 q.2 d (Ne.symm hqk)]
        exact hd
      rw [dUpdate, List.foldl_cons]
      exact ih (dSet q.1 q.2 d) hd2 he

/-- The merge of an `attributes`-free mapping over a dict whose
`attributes` key was removed has no `attributes` key. -/
theorem merged_attr_free (p : Dict) (a : ADict) (ha : dGet "attributes" a = none) :
    dGet "attributes" (dUpdate (dRemove "attributes" p)
      (a.map fun q => (q.1, q.2.toJ))) = none := by
  apply dGet_dUpdate_none
  · exact dGet_dRemove_self _ _
  · rw [dGet_map_snd, ha]
    rfl

/-- For an `attributes`-free entry the merged record has no `attributes`
key. -/
theorem normalizeEntry_attr_free (e : Entry) (hfree : attrFreeEntry e = true) :
    dGet "attributes" (normalizeEntry e) = none := by
  cases e with
  | typed r0 =>
    simp only [normalizeEntry, LinksResource.toRaw]
    simp [dGet]
  | raw d =>
    cases hA : dGet "attributes" d with
    | none =>
      simp only [normalizeEntry, hA]
      exact merged_attr_free d [] rfl
    | some v =>
      cases v with
      | obj a =>
        rw [attrFreeEntry, hA] at hfree
        simp only [Option.isNone_iff_eq_none] at hfree
        simp only [normalizeEntry, hA]
        exact merged_attr_free d a hfree
      | null =>
        simp only [normalizeEntry, hA]
        exact merged_attr_free d [] rfl
      | str s =>
        simp only [normalizeEntry, hA]
        exact merged_attr_free d [] rfl

/-- Every record a successful `unpackEntry` emits is the merged record,
possibly with an `_id` binding assigned on top. -/
theorem unpackEntry_ok_form (b : Bool) (e : Entry) (r : Dict)
    (hok : unpackEntry b e = .ok (some r)) :
    r = normalizeEntry e ∨ ∃ v, r = dSet "_id" v (normalizeEntry e) := by
  cases e with
  | typed r0 =>
    by_cases hid : r0.id = "exmpl"
    · simp [unpackEntry, LinksResource.toRaw, dGet, hid, bind, Except.bind,
        pure, Except.pure] at hok
    · cases b with
      | false =>
        left
        have hrun : unpackEntry false (.typed r0) =
            .ok (some (normalizeEntry (.typed r0))) := by
          simp [unpackEntry, normalizeEntry, LinksResource.toRaw, dGet, hid,
            bind, Except.bind, pure, Except.pure]
        rw [hrun] at hok
        simp only [Except.ok.injEq, Option.some.injEq] at hok
        exact hok.symm
      | true =>
        cases hmg : mongo_id_for_database r0.id r0.type_ with
        | error err =>
          simp [unpackEntry, LinksResource.toRaw, dGet, hid, bind, Except.bind,
            pure, Except.pure, dUpdate, dSet, dRemove, List.filter_cons,
            SVal.toJ, pyStr, hmg] at hok
        | ok m =>
          right
          refine ⟨.obj [("$oid", .str m)], ?_⟩
          have hrun : unpackEntry true (.typed r0) =
              .ok (some (dSet "_id" (.obj [("$oid", .str m)])
                (normalizeEntry (.typed r0)))) := by
            simp [unpackEntry, normalizeEntry, LinksResource.toRaw, dGet, hid,
              bind, Except.bind, pure, Except.pure, dUpdate, dSet, dRemove,
              List.filter_cons, SVal.toJ, pyStr, hmg]
          rw [hrun] at hok
          simp only [Except.ok.injEq, Option.some.injEq] at hok
          exact hok.symm
  | raw d =>
    cases hg : dGet "id" d with
    | none =>
      simp [unpackEntry, hg, bind, Except.bind, pure, Except.pure] at hok
    | some idv =>
      by_cases hid : idv = JVal.str "exmpl"
      · simp [unpackEntry, hg, hid, bind, Except.bind, pure, Except.pure] at hok
      · cases hA : dGet "attributes" d with
        | none =>
          cases b with
          | false =>
            left
            have hrun : unpackEntry false (.raw d) =
                .ok (some (normalizeEntry (.raw d))) := by
              simp [unpackEntry, normalizeEntry, hg, hid, hA, bind, Except.bind,
                pure, Except.pure]
            rw [hrun] at hok
            simp only [Except.ok.injEq, Option.some.injEq] at hok
            exact hok.symm
          | true =>
            have hnorm : normalizeEntry (.raw d) =
                dUpdate (dRemove "attributes" d) [] := by
              simp [normalizeEntry, hA]
            cases hg2 : dGet "id" (dUpdate (dRemove "attributes" d) []) with
            | none =>
              simp [unpackEntry, hg, hid, hA, hg2, bind, Except.bind,
                pure, Except.pure] at hok
            | some idv2 =>
              cases hty2 : dGet "type" (dUpdate (dRemove "attributes" d) []) with
              | none =>
                simp [unpackEntry, hg, hid, hA, hg2, hty2, bind, Except.bind,
                  pure, Except.pure] at hok
              | some tyv2 =>
                cases hmg : mongo_id_for_database (pyStr idv2) (pyStr tyv2) with
                | error err =>
                  simp [unpackEntry, hg, hid, hA, hg2, hty2, hmg, bind,
                    Except.bind, pure, Except.pure] at hok
                | ok m =>
                  right
                  refine ⟨.obj [("$oid", .str m)], ?_⟩
                  rw [hnorm]
                  simp [unpackEntry, hg, hid, hA, hg2, hty2, hmg, bind,
                    Except.bind, pure, Except.pure] at hok
                  exact hok.symm
        | some v =>
          cases v with
          | null =>
            simp [unpackEntry, hg, hid, hA, bind, Except.bind,
              pure, Except.pure] at hok
          | str s =>
            simp [unpackEntry, hg, hid, hA, bind, Except.bind,
              pure, Except.pure] at hok
          | obj a =>
            cases b with
            | false =>
              left
              have hrun : unpackEntry false (.raw d) =
                  .ok (some (normalizeEntry (.raw d))) := by
                simp [unpackEntry, normalizeEntry, hg, hid, hA, bind,
                  Except.bind, pure, Except.pure]
              rw [hrun] at hok
              simp only [Except.ok.injEq, Option.some.injEq] at hok
              exact hok.symm
            | true =>
              have hnorm : normalizeEntry (.raw d) =
                  dUpdate (dRemove "attributes" d)
                    (a.map fun q => (q.1, q.2.toJ)) := by
                simp [normalizeEntry, hA]
              cases hg2 : dGet "id" (dUpdate (dRemove "attributes" d)
                  (a.map fun q => (q.1, q.2.toJ))) with
              | none =>
                simp [unpackEntry, hg, hid, hA, hg2, bind, Except.bind,
                  pure, Except.pure] at hok
              | some idv2 =>
                cases hty2 : dGet "type" (dUpdate (dRemove "attributes" d)
                    (a.map fun q => (q.1, q.2.toJ))) with
                | none =>
                  simp [unpackEntry, hg, hid, hA, hg2, hty2, bind, Except.bind,
                    pure, Except.pure] at hok
                | some tyv2 =>
                  cases hmg : mongo_id_for_database (pyStr idv2) (pyStr tyv2) with
                  | error err =>
                    simp [unpackEntry, hg, hid, hA, hg2, hty2, hmg, bind,
                      Except.bind, pure, Except.pure] at hok
                  | ok m =>
                    right
                    refine ⟨.obj [("$oid", .str m)], ?_⟩
                    rw [hnorm]
                    simp [unpackEntry, hg, hid, hA, hg2, hty2, hmg, bind,
                      Except.bind, pure, Except.pure] at hok
                    exact hok.symm

/-- C7 (amended): whenever `_unpack_providers` succeeds and no entry's
nested `attributes` mapping itself contains a key named `"attributes"`,
every output record has its attribute fields merged to the top level and
contains no nested `attributes` key. (When a nested `attributes` mapping
does contain such a key, `d.update(d.pop("attributes", {}))` re-inserts it,
so the restriction cannot be dropped.) -/
theorem c7_amended_no_attributes_key (data : List Entry) (b : Bool) :
    ∀ out : List Dict, _unpack_providers data b = .ok out →
      (∀ e ∈ data, attrFreeEntry e = true) →
      ∀ r ∈ out, dGet "attributes" r = none := by
  induction data with
  | nil =>
    intro out hok hfree r hr
    simp [_unpack_providers] at hok
    subst hok
    simp at hr
  | cons e rest ih =>
    intro out hok hfree r hr
    simp only [_unpack_providers, bind, Except.bind] at hok
    cases he : unpackEntry b e with
    | error err =>
      rw [he] at hok
      exact absurd hok (by simp)
    | ok ro =>
      rw [he] at hok
      cases ht : _unpack_providers rest b with
      | error err =>
        rw [ht] at hok
        cases ro <;> simp at hok
      | ok tail =>
        rw [ht] at hok
        cases ro with
        | none =>
          simp only [pure, Except.pure, Except.ok.injEq] at hok
          subst hok
          exact ih tail ht (fun x hx => hfree x (List.mem_cons_of_mem _ hx)) r hr
        | some dd =>
          simp only [pure, Except.pure, Except.ok.injEq] at hok
          subst hok
          rcases List.mem_cons.mp hr with hhd | htl
          · subst hhd
            rcases unpackEntry_ok_form b e _ he with h1 | ⟨v, h2⟩
            · rw [h1]
              exact normalizeEntry_attr_free e (hfree e (List.mem_cons_self e rest))
            · rw [h2, dGet_dSet_ne _ _ _ _ (by decide)]
              exact normalizeEntry_attr_free e (hfree e (List.mem_cons_self e rest))
          · exact ih tail ht (fun x hx => hfree x (List.mem_cons_of_mem _ hx)) r htl

/-- Witness for the amended C7: a concrete record produced from an entry
with merged attributes has no `attributes` key. -/
theorem c7_amended_witness :
    dGet "attributes" [("id", JVal.str "x"), ("name", JVal.str "N")] = none :=
  c7_amended_no_attributes_key
    [.raw [("id", .str "x"), ("attributes", .obj [("name", .str "N")])]] false
    [[("id", JVal.str "x"), ("name", JVal.str "N")]] (by decide) (by decide)
    [("id", JVal.str "x"), ("name", JVal.str "N")] (by decide)

end OptimadeUtils
